import Mathlib

/-!
Verification of the calibrate-power-stock dashboard pipeline (app.py).

The script is a sequential pipeline: load a CSV, apply sidebar filters
(six categorical multiselects plus a Start-year range slider), display a
bounded sample, and compute two aggregates (capacity by Status, capacity
by Start year). We embed the filter engine and the aggregators shallowly:
a Row is an association list from column names to values, a Dataset is a
column list plus a row list, and each pandas operation is translated to
an explicit list operation. Missing values (NaN) are the constructor
Value.missing; megawatt sums are rationals, so division by 1000 is exact.
-/

namespace PowerStock

/-- A cell value: a string, a numeric value, or missing (NaN). -/
inductive Value where
  | str : String → Value
  | num : ℚ → Value
  | missing : Value
deriving DecidableEq, Repr

/-- One row of the dataset: a finite map from column name to value,
represented as an association list. A column present in the dataset but
not in the row reads as missing, matching a NaN cell. -/
def Row : Type := List (String × Value)

instance : DecidableEq Row := by
  unfold Row
  infer_instance

/-- Read the value of a column in a row; absent keys read as missing. -/
def getVal (r : Row) (c : String) : Value :=
  match List.find? (fun p => p.fst = c) r with
  | some p => p.snd
  | none => Value.missing

/-- A dataset: the column names present in the frame, and the rows. -/
structure Dataset where
  cols : List String
  rows : List Row
deriving DecidableEq

/-- The six categorical filter columns, in the order app.py applies them
(lines 65 to 104). -/
def catColumns : List String :=
  ["Plant Type", "Technology", "Region", "Subregion", "Country/area", "Status"]

/-- A FilterSpec: for each categorical column the selected value set
(the empty list is the All, meaning no filter, selection returned by
multiselect_with_all), plus the Start-year slider range. -/
structure FilterSpec where
  catSel : String → List String
  startLow : Int
  startHigh : Int

/-- Row predicate of one categorical filter: the pandas isin test.
A missing or numeric cell is never a member of a string selection. -/
def passCat (c : String) (sel : List String) (r : Row) : Bool :=
  match getVal r c with
  | Value.str s => sel.contains s
  | _ => false

/-- One categorical filter step of app.py: guarded by column presence
and by a non-empty selection; otherwise the rows pass unchanged. -/
def catFilter (cols : List String) (s : FilterSpec) (c : String)
    (rows : List Row) : List Row :=
  if cols.contains c && !(s.catSel c).isEmpty then
    rows.filter (passCat c (s.catSel c))
  else
    rows

/-- Row predicate of the Start-year range filter (app.py lines 121-125):
notna and low le year and year le high. -/
def passYear (low high : Int) (r : Row) : Bool :=
  match getVal r "Start year" with
  | Value.num y => decide ((low : ℚ) ≤ y ∧ y ≤ (high : ℚ))
  | _ => false

/-- The Start-year range filter step. -/
def yearRangeFilter (low high : Int) (rows : List Row) : List Row :=
  rows.filter (passYear low high)

/-- The six categorical filter steps applied in program order. -/
def catFiltered (d : Dataset) (s : FilterSpec) : List Row :=
  catColumns.foldl (fun rows c => catFilter d.cols s c rows) d.rows

/-- The whole filter engine. The categorical steps are each guarded by
column presence, but app.py applies the Start-year range filter
unconditionally: when the Start year column is absent the expression
df_filtered[df_filtered["Start year"].notna() ...] raises KeyError,
which we model as the result none. -/
def applyFilters (d : Dataset) (s : FilterSpec) : Option (List Row) :=
  if d.cols.contains "Start year" then
    some (yearRangeFilter s.startLow s.startHigh (catFiltered d s))
  else
    none

/-- The non-missing Start-year values of a dataset, in row order
(pandas dropna on the Start year column). -/
def observedYears (d : Dataset) : List ℚ :=
  d.rows.filterMap (fun r =>
    match getVal r "Start year" with
    | Value.num y => some y
    | _ => none)

/-- Capacity a row contributes to a groupby sum: pandas sum skips NaN,
so a missing installed capacity MW cell contributes 0. -/
def capOf (r : Row) : ℚ :=
  match getVal r "installed capacity MW" with
  | Value.num m => m
  | _ => 0

/-- The distinct Status group keys, in first-occurrence order; rows with
a missing Status are dropped from grouping (pandas groupby dropna). -/
def statusKeys (rows : List Row) : List String :=
  (rows.filterMap (fun r =>
    match getVal r "Status" with
    | Value.str s => some s
    | _ => none)).dedup

/-- Aggregator A (app.py lines 147-154): group the filtered rows by
Status, sum installed capacity MW per group (NaN cells count as 0, a
group of only-NaN cells sums to 0), divide by 1000 for gigawatts. -/
def aggregateByStatus (rows : List Row) : List (String × ℚ) :=
  (statusKeys rows).map (fun s =>
    (s, ((rows.filter (fun r => decide (getVal r "Status" = Value.str s))).map
      capOf).sum / 1000))

/-- The rows kept by dropna on Start year and installed capacity MW,
reduced to their (year, megawatts) pair (app.py line 176). -/
def yearPairs (rows : List Row) : List (ℚ × ℚ) :=
  rows.filterMap (fun r =>
    match getVal r "Start year", getVal r "installed capacity MW" with
    | Value.num y, Value.num m => some (y, m)
    | _, _ => none)

/-- The distinct Start-year group keys in ascending order (groupby then
sort_values on Year). -/
def sortedYears (rows : List Row) : List ℚ :=
  List.insertionSort (· ≤ ·) ((yearPairs rows).map Prod.fst).dedup

/-- Summed new capacity of one year group, in gigawatts. -/
def newCapForYear (rows : List Row) (y : ℚ) : ℚ :=
  (((yearPairs rows).filter (fun p => decide (p.fst = y))).map Prod.snd).sum / 1000

/-- Walk the sorted years emitting (year, new GW, running cumulative GW),
the cumsum accumulator threaded left to right. -/
def aggAux (rows : List Row) (acc : ℚ) : List ℚ → List (ℚ × ℚ × ℚ)
  | [] => []
  | y :: t =>
    (y, newCapForYear rows y, acc + newCapForYear rows y) ::
      aggAux rows (acc + newCapForYear rows y) t

/-- Aggregator B (app.py lines 175-185): drop rows missing Start year or
installed capacity MW, group by Start year, sum megawatts per year,
convert to gigawatts, sort ascending by year, and attach the running
cumulative sum in that order. -/
def aggregateByYear (rows : List Row) : List (ℚ × ℚ × ℚ) :=
  aggAux rows 0 (sortedYears rows)

/-- Modelled from the spec: the display sample (app.py line 132) calls
the external library routine DataFrame.sample with n fixed to 10 and
random_state fixed to 42, whose internals are not part of this
repository; the spec requires only a deterministic fixed-size selection
governed by the fixed seed, modelled here as a seed-determined rotation
followed by a prefix of the requested size. -/
def sampleRows (seed n : Nat) (rows : List Row) : List Row :=
  (rows.drop (seed % (rows.length + 1)) ++
    rows.take (seed % (rows.length + 1))).take n

/-- The display step (app.py lines 131-134): a fixed-seed sample of 10
rows when more than 10 rows survive filtering, otherwise all rows. -/
def displaySample (rows : List Row) : List Row :=
  if rows.length > 10 then sampleRows 42 10 rows else rows

/-- An abstract file system for the load guard: a path-existence test
and the dataset a read would produce. -/
structure FS where
  pathExists : String → Bool
  readData : String → Dataset

/-- The render pipeline (app.py lines 24-185): the os.path.exists guard
runs before any read; on a missing file st.stop halts the script, so no
dataset is produced and no filter or aggregate step executes (result
none). Otherwise the dataset is read, filtered, and aggregated. -/
def runPipeline (fs : FS) (path : String) (s : FilterSpec) :
    Option (List Row × List (String × ℚ) × List (ℚ × ℚ × ℚ)) :=
  if fs.pathExists path then
    match applyFilters (fs.readData path) s with
    | some rows => some (rows, aggregateByStatus rows, aggregateByYear rows)
    | none => none
  else
    none

/-! Concrete inputs used by the closed theorems and witnesses below. -/

/-- A row whose Start year is 2000. -/
def rowYear2000 : Row := [("Start year", Value.num 2000)]

/-- A two-row dataset: one row with Start year 2000, one row with a
missing Start year. Its observed Start-year range is 2000 to 2000. -/
def dsTwo : Dataset := { cols := ["Start year"], rows := [rowYear2000, ([] : Row)] }

/-- The FilterSpec with every categorical selection empty and the slider
range equal to the full observed range of dsTwo. -/
def specFull2000 : FilterSpec :=
  { catSel := fun _ => [], startLow := 2000, startHigh := 2000 }

/-- A row with both a Status and a Start year. -/
def rowOp : Row := [("Status", Value.str "operating"), ("Start year", Value.num 2000)]

/-- A one-row dataset carrying the Status and Start year columns. -/
def dsOp : Dataset := { cols := ["Status", "Start year"], rows := [rowOp] }

/-- The all-pass FilterSpec with the default slider bounds. -/
def specAll : FilterSpec :=
  { catSel := fun _ => [], startLow := 1900, startHigh := 2100 }

/-- A dataset that lacks the Start year column. -/
def dsNoYear : Dataset :=
  { cols := ["Status"], rows := [[("Status", Value.str "operating")]] }

/-- The capacity-by-year scenario rows of the spec: Start year 2000 with
500 MW, 2000 with 500 MW, and 2001 with 1000 MW. -/
def rowsYearScenario : List Row :=
  [[("Start year", Value.num 2000), ("installed capacity MW", Value.num 500)],
   [("Start year", Value.num 2000), ("installed capacity MW", Value.num 500)],
   [("Start year", Value.num 2001), ("installed capacity MW", Value.num 1000)]]

/-- The capacity-by-status scenario rows of the spec. -/
def rowsStatusScenario : List Row :=
  [[("Status", Value.str "operating"), ("installed capacity MW", Value.num 1000)],
   [("Status", Value.str "operating"), ("installed capacity MW", Value.num 2000)],
   [("Status", Value.str "retired"), ("installed capacity MW", Value.num 500)]]

/-- A file system on which no path exists. -/
def fsEmpty : FS :=
  { pathExists := fun _ => false, readData := fun _ => dsOp }

/-- Eleven rows, to exercise the sampling branch. -/
def rowsEleven : List Row := List.replicate 11 ([] : Row)

/-- A FilterSpec selecting the operating value on the Status column and
nothing elsewhere. -/
def specStatusOperating : FilterSpec :=
  { catSel := fun c => if c = "Status" then ["operating"] else [],
    startLow := 1900, startHigh := 2100 }

/-! Helper lemmas about the filter engine. -/

lemma catFilter_sublist (cols : List String) (s : FilterSpec) (c : String)
    (rows : List Row) : (catFilter cols s c rows).Sublist rows := by
  unfold catFilter
  split
  · exact List.filter_sublist rows
  · exact List.Sublist.refl rows

lemma foldl_catFilter_sublist (cols : List String) (s : FilterSpec) :
    ∀ (cs : List String) (rows : List Row),
      (cs.foldl (fun rows c => catFilter cols s c rows) rows).Sublist rows
  | [], rows => List.Sublist.refl rows
  | c :: cs, rows =>
    (foldl_catFilter_sublist cols s cs (catFilter cols s c rows)).trans
      (catFilter_sublist cols s c rows)

lemma passCat_iff (c : String) (sel : List String) (r : Row) :
    passCat c sel r = true ↔
      ∃ v : String, getVal r c = Value.str v ∧ v ∈ sel := by
  unfold passCat
  cases h : getVal r c with
  | str v => simp [List.contains, List.elem_iff]
  | num q => simp
  | missing => simp

lemma pass_of_mem_foldl_catFilter (cols : List String) (s : FilterSpec)
    (cs : List String) :
    ∀ (rows : List Row) (r : Row) (c : String), c ∈ cs →
      cols.contains c = true → s.catSel c ≠ [] →
      r ∈ cs.foldl (fun rows c => catFilter cols s c rows) rows →
      passCat c (s.catSel c) r = true := by
  induction cs with
  | nil =>
    intro rows r c hc _ _ _
    cases hc
  | cons a t ih =>
    intro rows r c hc hcol hne hr
    rcases List.mem_cons.mp hc with h | h
    · subst h
      have hr0 : r ∈ catFilter cols s c rows :=
        (foldl_catFilter_sublist cols s t _).subset hr
      have hfalse : (s.catSel c).isEmpty = false := by
        cases hx : s.catSel c with
        | nil => exact absurd hx hne
        | cons b l => rfl
      rw [catFilter, hcol, hfalse] at hr0
      simp only [Bool.not_false, Bool.and_true, if_true] at hr0
      exact (List.mem_filter.mp hr0).2
    · exact ih (catFilter cols s a rows) r c h hcol hne hr

lemma passYear_iff (low high : Int) (r : Row) :
    passYear low high r = true ↔
      ∃ y : ℚ, getVal r "Start year" = Value.num y ∧
        (low : ℚ) ≤ y ∧ y ≤ (high : ℚ) := by
  unfold passYear
  cases h : getVal r "Start year" with
  | str v => simp
  | num q => simp
  | missing => simp

lemma catFiltered_of_no_selection (d : Dataset) (s : FilterSpec)
    (hsel : ∀ c, s.catSel c = []) : catFiltered d s = d.rows := by
  have key : ∀ (cs : List String) (rows : List Row),
      cs.foldl (fun rows c => catFilter d.cols s c rows) rows = rows := by
    intro cs
    induction cs with
    | nil => intro rows; rfl
    | cons a t ih =>
      intro rows
      have ha : catFilter d.cols s a rows = rows := by
        rw [catFilter, hsel a]
        simp
      rw [List.foldl_cons, ha, ih rows]
  exact key catColumns d.rows

/-! Claim theorems about the filter engine. -/

/-- C3 (confirmed): a row passes the Start-year range filter iff its
Start year value is present and lies between low and high inclusive; in
particular a row with a missing Start year is always excluded, whatever
the bounds. -/
theorem yearRangeFilter_mem_iff :
    (∀ (low high : Int) (rows : List Row) (r : Row),
        r ∈ yearRangeFilter low high rows ↔
          r ∈ rows ∧ ∃ y : ℚ, getVal r "Start year" = Value.num y ∧
            (low : ℚ) ≤ y ∧ y ≤ (high : ℚ)) ∧
    (∀ (low high : Int) (rows : List Row) (r : Row),
        getVal r "Start year" = Value.missing →
          r ∉ yearRangeFilter low high rows) := by
  have h1 : ∀ (low high : Int) (rows : List Row) (r : Row),
      r ∈ yearRangeFilter low high rows ↔
        r ∈ rows ∧ ∃ y : ℚ, getVal r "Start year" = Value.num y ∧
          (low : ℚ) ≤ y ∧ y ≤ (high : ℚ) := by
    intro low high rows r
    rw [yearRangeFilter, List.mem_filter, passYear_iff]
  refine ⟨h1, ?_⟩
  intro low high rows r hm hr
  obtain ⟨-, y, hy, -⟩ := (h1 low high rows r).mp hr
  rw [hm] at hy
  cases hy

/-- Witness for C3: the empty row has a missing Start year and is
excluded by a maximally wide range. -/
theorem yearRangeFilter_missing_excluded_witness :
    ([] : Row) ∉ yearRangeFilter 1900 2100 [([] : Row)] :=
  yearRangeFilter_mem_iff.2 1900 2100 [([] : Row)] ([] : Row) rfl

/-- C7 (confirmed): the filtered rows are a subsequence of the dataset
rows in the same relative order. The embedding is pure, so the input
dataset itself is never mutated by the operation. -/
theorem applyFilters_sublist (d : Dataset) (s : FilterSpec) (out : List Row)
    (h : applyFilters d s = some out) : out.Sublist d.rows := by
  rw [applyFilters] at h
  split at h
  · simp only [Option.some.injEq] at h
    subst h
    exact (List.filter_sublist _).trans
      (foldl_catFilter_sublist d.cols s catColumns d.rows)
  · cases h

/-- C4 (confirmed): under a non-empty categorical selection on a column
present in the dataset, every row of the filtered result carries a value
of that column belonging to the selection; a missing value never
appears. -/
theorem catSelection_members_only (d : Dataset) (s : FilterSpec) (c : String)
    (hc : c ∈ catColumns) (hcol : d.cols.contains c = true)
    (hne : s.catSel c ≠ []) (out : List Row)
    (hout : applyFilters d s = some out) (r : Row) (hr : r ∈ out) :
    ∃ v : String, getVal r c = Value.str v ∧ v ∈ s.catSel c := by
  rw [applyFilters] at hout
  split at hout
  · simp only [Option.some.injEq] at hout
    subst hout
    have h1 : r ∈ catFiltered d s := (List.filter_sublist _).subset hr
    have h2 : passCat c (s.catSel c) r = true :=
      pass_of_mem_foldl_catFilter d.cols s catColumns d.rows r c hc hcol hne h1
    exact (passCat_iff c (s.catSel c) r).mp h2
  · cases hout

/-- C1, amended (corrected): with every categorical selection empty and
every row's Start year present and inside the slider range (which holds
in particular when the range is the full observed range), applyFilters
returns the full row list unchanged. The original claim also admitted
rows with a missing Start year; those are dropped by the range filter,
see the counterexample. -/
theorem applyFilters_noFilter_fullRange_eq_rows (d : Dataset) (s : FilterSpec)
    (hcol : d.cols.contains "Start year" = true)
    (hsel : ∀ c, s.catSel c = [])
    (hyear : ∀ r ∈ d.rows, ∃ y : ℚ, getVal r "Start year" = Value.num y ∧
      (s.startLow : ℚ) ≤ y ∧ y ≤ (s.startHigh : ℚ)) :
    applyFilters d s = some d.rows := by
  rw [applyFilters, hcol]
  simp only [if_true]
  rw [catFiltered_of_no_selection d s hsel]
  have : yearRangeFilter s.startLow s.startHigh d.rows = d.rows := by
    rw [yearRangeFilter, List.filter_eq_self]
    intro r hr
    exact (passYear_iff s.startLow s.startHigh r).mpr (hyear r hr)
  rw [this]

/-- Counterexample to C1 as stated: on dsTwo, whose observed Start-year
range is exactly 2000 to 2000, the all-pass FilterSpec with that very
range does not return the dataset unchanged: the row with a missing
Start year is dropped. -/
theorem applyFilters_missingYearRow_dropped :
    observedYears dsTwo = [2000] ∧
    specFull2000.startLow = 2000 ∧ specFull2000.startHigh = 2000 ∧
    specFull2000.catSel = (fun _ => []) ∧
    applyFilters dsTwo specFull2000 = some [rowYear2000] ∧
    applyFilters dsTwo specFull2000 ≠ some dsTwo.rows :=
  ⟨by decide, rfl, rfl, rfl, by decide, by decide⟩

/-- Witness for the amended C1 at a concrete input. -/
theorem applyFilters_noFilter_fullRange_witness :
    applyFilters dsOp specAll = some dsOp.rows :=
  applyFilters_noFilter_fullRange_eq_rows dsOp specAll (by decide) (fun _ => rfl)
    (fun r hr => by
      rcases List.mem_cons.mp hr with h | h
      · exact ⟨2000, by rw [h]; decide, by decide, by decide⟩
      · cases h)

/-- C2 (code bug): the claim says a filter whose column is absent is
skipped without error. That is true of the six guarded categorical
filters, but app.py applies the Start-year range filter with no column
guard: on a dataset lacking the Start year column the subscript
df_filtered["Start year"] raises KeyError (modelled as none) instead of
skipping, even though the bounds computation just above it is guarded by
exactly that column test. -/
theorem applyFilters_noYearColumn_fails :
    applyFilters dsNoYear specAll = none ∧
    applyFilters dsNoYear specAll ≠ some dsNoYear.rows :=
  ⟨rfl, by decide⟩

/-! Helper lemmas about the year aggregator. -/

lemma aggAux_map_fst (rows : List Row) (ys : List ℚ) :
    ∀ acc : ℚ, (aggAux rows acc ys).map Prod.fst = ys := by
  induction ys with
  | nil => intro acc; rfl
  | cons y t ih => intro acc; simp only [aggAux, List.map_cons, ih]

lemma aggAux_length (rows : List Row) (ys : List ℚ) :
    ∀ acc : ℚ, (aggAux rows acc ys).length = ys.length := by
  induction ys with
  | nil => intro acc; rfl
  | cons y t ih => intro acc; simp only [aggAux, List.length_cons, ih]

lemma aggAux_cum (rows : List Row) (ys : List ℚ) :
    ∀ (acc : ℚ) (i : Nat), i < ys.length →
      ((aggAux rows acc ys).getD i (0, 0, 0)).2.2 =
        acc + (((aggAux rows acc ys).map (fun p => p.2.1)).take (i + 1)).sum := by
  induction ys with
  | nil =>
    intro acc i hi
    exact absurd hi (Nat.not_lt_zero i)
  | cons y t ih =>
    intro acc i hi
    cases i with
    | zero =>
      simp [aggAux]
    | succ j =>
      have hj : j < t.length := Nat.lt_of_succ_lt_succ hi
      simp only [aggAux, List.getD_cons_succ, List.map_cons, List.take_succ_cons,
        List.sum_cons]
      rw [ih (acc + newCapForYear rows y) j hj]
      ring

lemma sortedYears_sorted_lt (rows : List Row) :
    (sortedYears rows).Sorted (· < ·) := by
  have h1 : (sortedYears rows).Sorted (· ≤ ·) :=
    List.sorted_insertionSort (· ≤ ·) _
  have h2 : (sortedYears rows).Nodup :=
    (List.perm_insertionSort (· ≤ ·) _).symm.nodup
      (List.nodup_dedup ((yearPairs rows).map Prod.fst))
  exact h1.lt_of_le h2

/-- C5 (confirmed): the year aggregate is sorted strictly ascending by
year, and at every index the cumulative gigawatt entry equals the sum of
the new-capacity gigawatt entries up to and including that index. The
dropping of rows missing Start year or installed capacity MW, the
grouping, and the division by 1000 are the definitions of yearPairs,
newCapForYear and aggregateByYear themselves. -/
theorem aggregateByYear_sorted_cumulative (rows : List Row) :
    ((aggregateByYear rows).map Prod.fst).Sorted (· < ·) ∧
    ∀ i : Nat, i < (aggregateByYear rows).length →
      ((aggregateByYear rows).getD i (0, 0, 0)).2.2 =
        (((aggregateByYear rows).map (fun p => p.2.1)).take (i + 1)).sum := by
  constructor
  · rw [aggregateByYear, aggAux_map_fst]
    exact sortedYears_sorted_lt rows
  · intro i hi
    rw [aggregateByYear] at hi ⊢
    rw [aggAux_length] at hi
    rw [aggAux_cum rows (sortedYears rows) 0 i hi, zero_add]

/-- Witness for C5 at index 1 of the concrete scenario. -/
theorem aggregateByYear_sorted_cumulative_witness :
    ((aggregateByYear rowsYearScenario).getD 1 (0, 0, 0)).2.2 =
      (((aggregateByYear rowsYearScenario).map (fun p => p.2.1)).take 2).sum :=
  (aggregateByYear_sorted_cumulative rowsYearScenario).2 1 (by
    rw [aggregateByYear, aggAux_length]
    decide)

/-- C6 (confirmed): on the three-row scenario dataset the status
aggregate yields exactly the groups operating with 3 GW and retired with
0.5 GW; and a row with a missing Status is excluded from grouping, so a
dataset of only such rows aggregates to the empty sequence. -/
theorem aggregateByStatus_scenario :
    aggregateByStatus rowsStatusScenario =
      [("operating", 3), ("retired", 1 / 2)] ∧
    aggregateByStatus [[("installed capacity MW", Value.num 700)]] = [] := by
  constructor
  · simp +decide [aggregateByStatus, statusKeys, capOf, getVal, rowsStatusScenario,
      List.dedup, List.pwFilter, List.filterMap, List.filter, List.find?]
    norm_num
  · rfl

/-- C10 (confirmed): in the status aggregate a row with a present Status
but missing capacity is kept and contributes 0, so a group made only of
such rows still appears with total 0; a mixed group sums only its
present capacities; the year aggregate instead drops a row with missing
capacity entirely, so a dataset of only such rows yields the empty
sequence. -/
theorem aggregateByStatus_missing_capacity_zero :
    aggregateByStatus [[("Status", Value.str "solar")]] = [("solar", 0)] ∧
    aggregateByStatus
      [[("Status", Value.str "solar"), ("installed capacity MW", Value.num 5)],
       [("Status", Value.str "solar")]] = [("solar", 5 / 1000)] ∧
    aggregateByYear [[("Status", Value.str "solar"), ("Start year", Value.num 2005)]]
      = [] := by
  refine ⟨?_, ?_, rfl⟩
  · simp +decide [aggregateByStatus, statusKeys, capOf, getVal,
      List.dedup, List.pwFilter, List.filterMap, List.filter, List.find?]
  · simp +decide [aggregateByStatus, statusKeys, capOf, getVal,
      List.dedup, List.pwFilter, List.filterMap, List.filter, List.find?]

/-- C8 (confirmed): when the path does not exist the pipeline halts at
the existence guard with no dataset, filter or aggregate step executed
(result none), and the outcome is the same whatever reading the file
would have produced, since the guard runs before any read. -/
theorem runPipeline_missing_file_halts (fs : FS) (g : String → Dataset)
    (path : String) (s : FilterSpec) (h : fs.pathExists path = false) :
    runPipeline fs path s = none ∧
    runPipeline fs path s =
      runPipeline { pathExists := fs.pathExists, readData := g } path s := by
  rw [runPipeline, runPipeline]
  simp [h]

/-- Witness for C8 on the empty file system. -/
theorem runPipeline_missing_file_witness :
    runPipeline fsEmpty "gem_cleaned_2025.csv" specAll = none :=
  (runPipeline_missing_file_halts fsEmpty (fun _ => dsNoYear)
    "gem_cleaned_2025.csv" specAll rfl).1

/-- C9 (confirmed): when more than 10 rows survive filtering, the
displayed sample has exactly 10 rows and is exactly the fixed-seed
sample of the filtered rows, a pure function of the filtered set and
the policy constants 10 and 42 alone, hence identical across repeated
runs on the same filtered set. -/
theorem displaySample_length_ten (rows : List Row)
    (h : rows.length > 10) :
    (displaySample rows).length = 10 ∧
    displaySample rows = sampleRows 42 10 rows := by
  have hds : displaySample rows = sampleRows 42 10 rows := by
    rw [displaySample, if_pos h]
  refine ⟨?_, hds⟩
  rw [hds, sampleRows]
  rw [List.length_take, List.length_append, List.length_drop, List.length_take]
  have hk : 42 % (rows.length + 1) ≤ rows.length := by
    have h2 : 42 % (rows.length + 1) < rows.length + 1 :=
      Nat.mod_lt 42 (by omega)
    omega
  omega

/-- Witness for C9 on an eleven-row filtered set. -/
theorem displaySample_length_ten_witness :
    (displaySample rowsEleven).length = 10 :=
  (displaySample_length_ten rowsEleven (by decide)).1

/-- Witness for C4: the surviving row of a concrete filtered dataset
carries a Status value from the selection. -/
theorem catSelection_members_only_witness :
    ∃ v : String, getVal rowOp "Status" = Value.str v ∧
      v ∈ specStatusOperating.catSel "Status" :=
  catSelection_members_only dsOp specStatusOperating "Status" (by decide)
    (by decide) (by decide) [rowOp] (by decide) rowOp (by decide)

/-- Witness for C7: a concrete filtered result is a subsequence of its
dataset rows. -/
theorem applyFilters_sublist_witness :
    List.Sublist [rowYear2000] dsTwo.rows :=
  applyFilters_sublist dsTwo specFull2000 [rowYear2000] (by decide)

end PowerStock
